import Mathlib

set_option maxRecDepth 100000

/-!
Verification development for the G-code handling core of the
OctoPrint-ExcludeRegionPlugin repository (`octoprint_excluderegion/GcodeHandlers.py`).

The Python source is shallowly embedded here:

* Floating-point numbers are idealised as elements of a `LinearOrderedField`
  (instantiated at `ℚ` for executable evaluation and at `ℝ` when the actual
  transcendental functions `math.atan2`, `math.hypot`, `math.sqrt`, `math.cos`,
  `math.sin` matter).  The transcendental primitives are collected in a
  `MathOps` record; `realMathOps` is the real-number interpretation.
* The external `state` collaborator (an `ExcludeRegionState` object living in a
  different module of the repository) is modelled as an opaque state type `σ`
  together with a record `StateOps` of the operations the handlers invoke on it,
  exactly the interface surface the source uses.
* Python exceptions (`ZeroDivisionError` from `angularTravel / (numSegments - 1)`
  and `ValueError` from `math.sqrt` of a negative number) are modelled by an
  `Option` result: `none` means the corresponding call raises.
* The Python 2 `re` semantics of `REGEX_SPLIT` (zero-width matches do not split)
  and `REGEX_FLOAT_ARG` are embedded as structural recursion over the command's
  character list.
-/

namespace ExcludeRegion

/-- Result of a G-code handler: `None` (pass through), a list of replacement
commands, or the `IGNORE_GCODE_CMD` suppression sentinel. -/
inductive HandlerResult where
  | noop : HandlerResult
  | commands : List String → HandlerResult
  | ignore : HandlerResult
deriving DecidableEq, Repr

/-- The record built by `_handle_G10` and passed to `state.recordRetraction`:
`RetractionState(firmwareRetract=True, originalCommand=cmd)`.  Modelled from the
spec: the class itself lives outside the given source file; per the spec it is
"an ephemeral value object signaling firmware-level retract with the original
command text". -/
structure RetractionState where
  firmwareRetract : Bool
  originalCommand : String
deriving DecidableEq, Repr

/-- The transcendental `math` primitives used by `planArc` and
`_computeCenterOffsets`, abstracted so that the geometric code can be stated
both parametrically and at the real-number interpretation `realMathOps`. -/
structure MathOps (α : Type) where
  hypot : α → α → α
  atan2 : α → α → α
  cos : α → α
  sin : α → α
  sqrt : α → α
  twoPi : α

/-- Interface of the external `ExcludeRegionState` collaborator, as consumed by
`GcodeHandlers`: per-axis reads (`X_AXIS.current`, `logicalToNative`), per-axis
mutators (`setHome`, `setLogicalPosition`, `setLogicalOffsetPosition`,
`setHomeOffset`), the mode setters, and the delegation entry points
(`processLinearMoves`, `processExtendedGcode`, `recordRetraction`,
`recoverRetractionIfNeeded`, `ignoreGcodeCommand`).  The collaborator's state is
an opaque type `σ`; mutation is modelled by explicit state passing.
`ignoreGcodeCommand` returns the suppression sentinel in the source, so its
model returns only the updated state and the caller produces
`HandlerResult.ignore`. -/
structure StateOps (α : Type) (σ : Type) where
  xCurrent : σ → α
  yCurrent : σ → α
  zCurrent : σ → α
  xLogicalToNative : σ → α → α
  yLogicalToNative : σ → α → α
  zLogicalToNative : σ → α → α
  eLogicalToNative : σ → α → α
  xSetHome : σ → σ
  ySetHome : σ → σ
  zSetHome : σ → σ
  eSetLogicalPosition : σ → α → σ
  xSetLogicalOffsetPosition : σ → α → σ
  ySetLogicalOffsetPosition : σ → α → σ
  zSetLogicalOffsetPosition : σ → α → σ
  xSetHomeOffset : σ → α → σ
  ySetHomeOffset : σ → α → σ
  zSetHomeOffset : σ → α → σ
  setUnitMultiplier : σ → α → σ
  setAbsoluteMode : σ → Bool → σ
  processLinearMoves : σ → String → Option α → Option α → Option α → List (Option α) →
    HandlerResult × σ
  processExtendedGcode : σ → String → String → Option String → HandlerResult × σ
  recordRetraction : σ → RetractionState → Option (List String) × σ
  recoverRetractionIfNeeded : σ → String → Bool → Option (List String) × σ
  ignoreGcodeCommand : σ → σ

/-- Full plugin state as seen by `handleGcode`: the collaborator state plus its
`numCommands` counter (which `handleGcode` increments directly). -/
structure GState (σ : Type) where
  numCommands : ℕ
  inner : σ
deriving DecidableEq

/- ### Command tokenizer (`REGEX_SPLIT` and `REGEX_FLOAT_ARG`) -/

/-- Characters matched by the regex class `\s` (Python 2 `str` patterns). -/
def isSpaceCh (c : Char) : Bool :=
  c = ' ' || c = '\t' || c = '\n' || c = '\r' || c = '\x0b' || c = '\x0c'

/-- Characters matched by `[A-Za-z]`. -/
def isLetterCh (c : Char) : Bool :=
  ('A' ≤ c && c ≤ 'Z') || ('a' ≤ c && c ≤ 'z')

/-- Characters matched by `[0-9]`. -/
def isDigitCh (c : Char) : Bool :=
  '0' ≤ c && c ≤ '9'

/-- Worker for `splitArgs`.  `pend` holds (reversed) whitespace not yet
committed to the current (reversed) token `cur`.  A letter reached with pending
whitespace starts a new token and the whitespace is discarded (the
`(?<!^)\s*(?=[A-Za-z])` match); a letter with no pending whitespace extends the
current token (a zero-width match, which Python 2 `re.split` does not split on);
whitespace followed by a non-letter stays inside the token. -/
def splitAux : List Char → List Char → List Char → List (List Char)
  | [], pend, cur => [(pend ++ cur).reverse]
  | c :: rest, pend, cur =>
    if isSpaceCh c then splitAux rest (c :: pend) cur
    else if isLetterCh c then
      if pend.isEmpty then splitAux rest [] (c :: cur)
      else cur.reverse :: splitAux rest [] [c]
    else splitAux rest [] (c :: (pend ++ cur))

/-- `REGEX_SPLIT.split(cmd)`: split the command before each letter that starts a
new argument, never at position zero.  The first character is committed to the
first token unconditionally, which realises the `(?<!^)` lookbehind. -/
def splitArgs (cmd : String) : List String :=
  match cmd.data with
  | [] => [String.mk []]
  | c :: rest => (splitAux rest [] [c]).map (fun t => String.mk t)

/-- Numeric value of a decimal digit character. -/
def digitVal (c : Char) : ℕ := c.toNat - 48

/-- Value of a digit string. -/
def digitsVal (l : List Char) : ℕ := l.foldl (fun a c => 10 * a + digitVal c) 0

/-- The unsigned part `[0-9]*\.?[0-9]+` of `REGEX_FLOAT_PATTERN`, idealised to
an exact rational (Python's `float(...)` of the matched text).  Backtracking in
the regex makes `12.` match as `12`, and `.5` match as `0.5`; a lone `.` or an
empty remainder fails to match. -/
def parseUnsigned (s : List Char) : Option ℚ :=
  let d1 := s.takeWhile isDigitCh
  let r1 := s.dropWhile isDigitCh
  match r1 with
  | '.' :: r2 =>
    let d2 := r2.takeWhile isDigitCh
    if d2.isEmpty then
      if d1.isEmpty then none else some (digitsVal d1)
    else some ((digitsVal d1 : ℚ) + (digitsVal d2 : ℚ) / (10 : ℚ) ^ d2.length)
  | _ => if d1.isEmpty then none else some (digitsVal d1)

/-- The optional sign `[-+]?` followed by the unsigned part. -/
def parseFloat : List Char → Option ℚ
  | '-' :: rest => (parseUnsigned rest).map (fun v => -v)
  | '+' :: rest => parseUnsigned rest
  | s => parseUnsigned s

/-- `REGEX_FLOAT_ARG.search(token)`: a leading letter, optional whitespace, and
a float literal.  Returns the (raw, not yet upper-cased) label together with the
value, or `none` when the token does not match (such tokens are silently
ignored by every handler). -/
def parseArg (t : String) : Option (Char × ℚ) :=
  match t.data with
  | [] => none
  | c :: rest =>
    if isLetterCh c then (parseFloat (rest.dropWhile isSpaceCh)).map (fun v => (c, v))
    else none

/-- The `(label, value)` pairs handlers iterate over: every token after the
first (the loops start at `cmdArgs[1]`), keeping only regex matches. -/
def parsedArgs (cmd : String) : List (Char × ℚ) :=
  ((splitArgs cmd).drop 1).filterMap parseArg

/- ### Center-offset solver (`_computeCenterOffsets`) -/

variable {α : Type} [LinearOrderedField α] [FloorRing α] {σ : Type}

/-- The direction flag of `_computeCenterOffsets`:
`e = (1 if clockwise else 0) ^ (-1 if (radius < 0) else 1)`, where `^` is
Python's bitwise XOR on (arbitrary-precision, two's-complement) integers. -/
def arcDirectionFlag (clockwise : Bool) (radius : α) : ℤ :=
  Int.xor (if clockwise then 1 else 0) (if radius < 0 then -1 else 1)

/-- `_computeCenterOffsets(x, y, radius, clockwise)`: derive the center offsets
`(i, j)` from the radius form.  `none` models the `ValueError` raised by
`math.sqrt` when `radius² - halfDist²` is negative; the degenerate guard
(`radius` falsy, or start equals end) returns `(0, 0)` without touching
`sqrt`. -/
def computeCenterOffsets (m : MathOps α) (ops : StateOps α σ) (s : σ)
    (x y radius : α) (clockwise : Bool) : Option (α × α) :=
  let p1 := ops.xCurrent s
  let q1 := ops.yCurrent s
  if radius ≠ 0 ∧ (p1 ≠ x ∨ q1 ≠ y) then
    let e := arcDirectionFlag clockwise radius
    let deltaX := x - p1
    let deltaY := y - q1
    let dist := m.hypot deltaX deltaY
    let halfDist := dist / 2
    if radius * radius - halfDist * halfDist < 0 then none
    else
      let h := m.sqrt (radius * radius - halfDist * halfDist)
      let midX := (p1 + x) / 2
      let midY := (q1 + y) / 2
      let sx := -deltaY / dist
      let sy := -deltaX / dist
      let centerX := midX + (e : α) * h * sx
      let centerY := midY + (e : α) * h * sy
      some (centerX - p1, centerY - q1)
  else some (0, 0)

/- ### Arc planner (`planArc`) -/

/-- `radius = math.hypot(i, j)` in `planArc`. -/
def arcRadius (m : MathOps α) (i j : α) : α := m.hypot i j

/-- The angular travel of `planArc` before the full-circle adjustment:
`atan2(-i*rtY + j*rtX, -i*rtX - j*rtY)`, normalised into `[0, 2π)` and shifted
down a full turn for clockwise arcs.  `x, y` is the current position read from
the position state. -/
def arcTravelRaw (m : MathOps α) (x y endX endY i j : α) (clockwise : Bool) : α :=
  let centerX := x + i
  let centerY := y + j
  let rtX := endX - centerX
  let rtY := endY - centerY
  let a0 := m.atan2 (-i * rtY + j * rtX) (-i * rtX - j * rtY)
  let a1 := if a0 < 0 then a0 + m.twoPi else a0
  if clockwise then a1 - m.twoPi else a1

/-- The angular travel after the full-circle adjustment: a zero travel with the
endpoint equal to the current position becomes a full revolution `2π`. -/
def arcTravel (m : MathOps α) (x y endX endY i j : α) (clockwise : Bool) : α :=
  let raw := arcTravelRaw m x y endX endY i j clockwise
  if raw = 0 ∧ x = endX ∧ y = endY then m.twoPi else raw

/-- `numSegments = int(min(math.ceil(arcLength / MM_PER_ARC_SEGMENT), 2))` with
`MM_PER_ARC_SEGMENT = 1`. -/
def arcNumSegments (m : MathOps α) (x y endX endY i j : α) (clockwise : Bool) : ℤ :=
  min ⌈arcTravel m x y endX endY i j clockwise * arcRadius m i j⌉ 2

/-- `planArc(endX, endY, i, j, clockwise)`: the waypoint list approximating the
arc, flat x,y-alternating, ending with the exact endpoint.  The current
position is read from the state collaborator (`state.position.X_AXIS.current`,
`...Y_AXIS.current`).  `none` models the `ZeroDivisionError` raised by
`angularTravel / (numSegments - 1)` when `numSegments = 1`; the
`for dummy in range(1, numSegments)` loop is the map over
`(numSegments - 1).toNat` indices, with the angle advanced before each
emission. -/
def planArc (m : MathOps α) (ops : StateOps α σ) (s : σ)
    (endX endY i j : α) (clockwise : Bool) : Option (List α) :=
  let x := ops.xCurrent s
  let y := ops.yCurrent s
  let radius := arcRadius m i j
  let centerX := x + i
  let centerY := y + j
  let angularTravel := arcTravel m x y endX endY i j clockwise
  let numSegments := arcNumSegments m x y endX endY i j clockwise
  if numSegments = 1 then none
  else
    let angularIncrement := angularTravel / ((numSegments : α) - 1)
    let angle := m.atan2 (-i) (-j)
    some ((((List.range (numSegments - 1).toNat).map (fun k : ℕ =>
      [centerX + m.cos (angle + ((k : α) + 1) * angularIncrement) * radius,
       centerY + m.sin (angle + ((k : α) + 1) * angularIncrement) * radius])).flatten)
      ++ [endX, endY])

/- ### Linear move handlers (`_handle_G0`, `_handle_G1`) -/

/-- The optional argument fields collected by `_handle_G0`. -/
structure MoveArgs where
  e : Option ℚ
  f : Option ℚ
  x : Option ℚ
  y : Option ℚ
  z : Option ℚ
deriving DecidableEq, Repr

/-- One iteration of the `_handle_G0` argument loop: the label is upper-cased
and dispatched to the matching field; anything else is ignored. -/
def moveArgStep (a : MoveArgs) (lv : Char × ℚ) : MoveArgs :=
  let l := lv.1.toUpper
  if l = 'E' then { a with e := some lv.2 }
  else if l = 'F' then { a with f := some lv.2 }
  else if l = 'X' then { a with x := some lv.2 }
  else if l = 'Y' then { a with y := some lv.2 }
  else if l = 'Z' then { a with z := some lv.2 }
  else a

/-- The whole `_handle_G0` argument loop. -/
def moveArgsOf (cmd : String) : MoveArgs :=
  (parsedArgs cmd).foldl moveArgStep ⟨none, none, none, none, none⟩

/-- `_handle_G0` (and `_handle_G1`, which delegates to it): parse `E F X Y Z`
and delegate to `state.processLinearMoves(cmd, extruderPosition, feedRate, z,
x, y)`.  Absent fields stay `None`. -/
def handleG0 (ops : StateOps α σ) (s : σ) (cmd : String) : HandlerResult × σ :=
  let a := moveArgsOf cmd
  ops.processLinearMoves s cmd (a.e.map (fun q => (q : α))) (a.f.map (fun q => (q : α)))
    (a.z.map (fun q => (q : α))) [a.x.map (fun q => (q : α)), a.y.map (fun q => (q : α))]

/- ### Arc handlers (`_handle_G2`, `_handle_G3`) -/

/-- The argument fields collected by `_handle_G2`: `x, y, z` default to the
current native position, `i, j` default to `0`, `e`, `f`, `radius` to `None`. -/
structure ArcArgs (α : Type) where
  x : α
  y : α
  z : α
  e : Option α
  f : Option α
  radius : Option α
  i : α
  j : α

/-- Initial `ArcArgs` of `_handle_G2`. -/
def arcInit (ops : StateOps α σ) (s : σ) : ArcArgs α :=
  ⟨ops.xCurrent s, ops.yCurrent s, ops.zCurrent s, none, none, none, 0, 0⟩

/-- One iteration of the `_handle_G2` argument loop: `X Y Z E` are converted
from logical to native coordinates on their axis, `F` and `R` are taken
verbatim, `I`/`J` are converted on the X/Y axes. -/
def arcStep (ops : StateOps α σ) (s : σ) (a : ArcArgs α) (lv : Char × ℚ) : ArcArgs α :=
  let l := lv.1.toUpper
  let v : α := (lv.2 : α)
  if l = 'X' then { a with x := ops.xLogicalToNative s v }
  else if l = 'Y' then { a with y := ops.yLogicalToNative s v }
  else if l = 'Z' then { a with z := ops.zLogicalToNative s v }
  else if l = 'E' then { a with e := some (ops.eLogicalToNative s v) }
  else if l = 'F' then { a with f := some v }
  else if l = 'R' then { a with radius := some v }
  else if l = 'I' then { a with i := ops.xLogicalToNative s v }
  else if l = 'J' then { a with j := ops.yLogicalToNative s v }
  else a

/-- The whole `_handle_G2` argument loop. -/
def arcArgsOf (ops : StateOps α σ) (s : σ) (cmd : String) : ArcArgs α :=
  (parsedArgs cmd).foldl (arcStep ops s) (arcInit ops s)

/-- Tail of `_handle_G2` after the center offsets are settled: a nonzero offset
invokes `planArc` and delegates the waypoints to `processLinearMoves`; a zero
offset returns `None` (pass through). -/
def arcFinish (m : MathOps α) (ops : StateOps α σ) (s : σ) (cmd : String)
    (a : ArcArgs α) (i j : α) (clockwise : Bool) : Option (HandlerResult × σ) :=
  if i ≠ 0 ∨ j ≠ 0 then
    match planArc m ops s a.x a.y i j clockwise with
    | none => none
    | some xyPairs =>
      some (ops.processLinearMoves s cmd a.e a.f (some a.z) (xyPairs.map some))
  else some (HandlerResult.noop, s)

/-- `_handle_G2` (and `_handle_G3`, which delegates to it): `clockwise` is
`gcode == "G2"`; a present `R` routes through `_computeCenterOffsets`.  `none`
models an uncaught exception (`ValueError` from the solver or
`ZeroDivisionError` from the planner). -/
def handleG2 (m : MathOps α) (ops : StateOps α σ) (s : σ)
    (cmd gcode : String) : Option (HandlerResult × σ) :=
  let clockwise := gcode = r"G2"
  let a := arcArgsOf ops s cmd
  match a.radius with
  | some r =>
    match computeCenterOffsets m ops s a.x a.y r clockwise with
    | none => none
    | some ij => arcFinish m ops s cmd a ij.1 ij.2 clockwise
  | none => arcFinish m ops s cmd a a.i a.j clockwise

/- ### Retraction handlers (`_handle_G10`, `_handle_G11`) -/

/-- `cmdArgs[index][0].upper()` is `P` or `L` (the RepRap tool-offset /
workspace-coordinates forms of `G10`). -/
def startsWithPL (t : String) : Bool :=
  t.data.head?.map Char.toUpper = some 'P' || t.data.head?.map Char.toUpper = some 'L'

/-- `_handle_G10`: any `P` or `L` argument passes the command through
unmodified; otherwise a firmware-retract `RetractionState` is recorded, and a
`None` answer from the recorder suppresses the command
(`state.ignoreGcodeCommand()`). -/
def handleG10 (ops : StateOps α σ) (s : σ) (cmd : String) : HandlerResult × σ :=
  if ((splitArgs cmd).drop 1).any startsWithPL then (HandlerResult.noop, s)
  else
    match ops.recordRetraction s ⟨true, cmd⟩ with
    | (none, s') => (HandlerResult.ignore, ops.ignoreGcodeCommand s')
    | (some cs, s') => (HandlerResult.commands cs, s')

/-- `_handle_G11`: delegate to `state.recoverRetractionIfNeeded(None, cmd,
True)`; a `None` answer suppresses the command. -/
def handleG11 (ops : StateOps α σ) (s : σ) (cmd : String) : HandlerResult × σ :=
  match ops.recoverRetractionIfNeeded s cmd true with
  | (none, s') => (HandlerResult.ignore, ops.ignoreGcodeCommand s')
  | (some cs, s') => (HandlerResult.commands cs, s')

/- ### State-mutating handlers (`_handle_G20` .. `_handle_M206`) -/

/-- `_handle_G20`: set the unit multiplier to `INCHES_PER_MM = 25.4`. -/
def handleG20 (ops : StateOps α σ) (s : σ) (cmd : String) : HandlerResult × σ :=
  (HandlerResult.noop, ops.setUnitMultiplier s (254 / 10))

/-- `_handle_G21`: set the unit multiplier to `1`. -/
def handleG21 (ops : StateOps α σ) (s : σ) (cmd : String) : HandlerResult × σ :=
  (HandlerResult.noop, ops.setUnitMultiplier s 1)

/-- Does any token of the command start (after upper-casing) with the given
letter?  This is the `arg.upper().startswith(...)` scan of `_handle_G28`, which
iterates over all tokens including the command code itself. -/
def anyTokenStarts (cmd : String) (c : Char) : Bool :=
  (splitArgs cmd).any (fun t => t.data.head?.map Char.toUpper = some c)

/-- `_handle_G28`: home each axis whose letter is present; with no axis letters
home all three.  Homing applies `setHome` in X, Y, Z order. -/
def handleG28 (ops : StateOps α σ) (s : σ) (cmd : String) : HandlerResult × σ :=
  let homeX := anyTokenStarts cmd 'X'
  let homeY := anyTokenStarts cmd 'Y'
  let homeZ := anyTokenStarts cmd 'Z'
  let all := !(homeX || homeY || homeZ)
  let hx := homeX || all
  let hy := homeY || all
  let hz := homeZ || all
  let s1 := if hx then ops.xSetHome s else s
  let s2 := if hy then ops.ySetHome s1 else s1
  let s3 := if hz then ops.zSetHome s2 else s2
  (HandlerResult.noop, s3)

/-- `_handle_G90`: absolute positioning mode. -/
def handleG90 (ops : StateOps α σ) (s : σ) (cmd : String) : HandlerResult × σ :=
  (HandlerResult.noop, ops.setAbsoluteMode s true)

/-- `_handle_G91`: relative positioning mode. -/
def handleG91 (ops : StateOps α σ) (s : σ) (cmd : String) : HandlerResult × σ :=
  (HandlerResult.noop, ops.setAbsoluteMode s false)

/-- One iteration of the `_handle_G92` argument loop: `E` sets the logical
position directly, `X Y Z` set a logical offset position. -/
def g92Step (ops : StateOps α σ) (s : σ) (lv : Char × ℚ) : σ :=
  let l := lv.1.toUpper
  let v : α := (lv.2 : α)
  if l = 'E' then ops.eSetLogicalPosition s v
  else if l = 'X' then ops.xSetLogicalOffsetPosition s v
  else if l = 'Y' then ops.ySetLogicalOffsetPosition s v
  else if l = 'Z' then ops.zSetLogicalOffsetPosition s v
  else s

/-- `_handle_G92`. -/
def handleG92 (ops : StateOps α σ) (s : σ) (cmd : String) : HandlerResult × σ :=
  (HandlerResult.noop, (parsedArgs cmd).foldl (g92Step ops) s)

/-- One iteration of the `_handle_M206` argument loop: `X Y Z` set the axis
home offset. -/
def m206Step (ops : StateOps α σ) (s : σ) (lv : Char × ℚ) : σ :=
  let l := lv.1.toUpper
  let v : α := (lv.2 : α)
  if l = 'X' then ops.xSetHomeOffset s v
  else if l = 'Y' then ops.ySetHomeOffset s v
  else if l = 'Z' then ops.zSetHomeOffset s v
  else s

/-- `_handle_M206`. -/
def handleM206 (ops : StateOps α σ) (s : σ) (cmd : String) : HandlerResult × σ :=
  (HandlerResult.noop, (parsedArgs cmd).foldl (m206Step ops) s)

/- ### Dispatcher (`handleGcode`) -/

/-- The `getattr(self, "_handle_" + gcode, self.state.processExtendedGcode)`
dispatch: the thirteen `_handle_*` methods by exact code, falling back to the
extended handler.  `none` models an uncaught exception from the arc path. -/
def dispatchGcode (m : MathOps α) (ops : StateOps α σ) (s : σ)
    (cmd gcode : String) (subcode : Option String) : Option (HandlerResult × σ) :=
  if gcode = r"G0" then some (handleG0 ops s cmd)
  else if gcode = r"G1" then some (handleG0 ops s cmd)
  else if gcode = r"G2" then handleG2 m ops s cmd gcode
  else if gcode = r"G3" then handleG2 m ops s cmd gcode
  else if gcode = r"G10" then some (handleG10 ops s cmd)
  else if gcode = r"G11" then some (handleG11 ops s cmd)
  else if gcode = r"G20" then some (handleG20 ops s cmd)
  else if gcode = r"G21" then some (handleG21 ops s cmd)
  else if gcode = r"G28" then some (handleG28 ops s cmd)
  else if gcode = r"G90" then some (handleG90 ops s cmd)
  else if gcode = r"G91" then some (handleG91 ops s cmd)
  else if gcode = r"G92" then some (handleG92 ops s cmd)
  else if gcode = r"M206" then some (handleM206 ops s cmd)
  else some (ops.processExtendedGcode s cmd gcode subcode)

/-- `handleGcode(cmd, gcode, subcode)`: increment `state.numCommands`, then
dispatch. -/
def handleGcode (m : MathOps α) (ops : StateOps α σ) (st : GState σ)
    (cmd gcode : String) (subcode : Option String) : Option (HandlerResult × GState σ) :=
  let n := st.numCommands + 1
  (dispatchGcode m ops st.inner cmd gcode subcode).map (fun p => (p.1, ⟨n, p.2⟩))

/- ### Concrete interpretations -/

/-- The real-number interpretation of the `math` primitives used by the source:
`hypot`, `atan2` (the argument of the complex number `x + y·I`, which has the
`atan2` range `(-π, π]` and sign conventions), `cos`, `sin`, `sqrt`, and the
constant `TWO_PI`. -/
noncomputable def realMathOps : MathOps ℝ where
  hypot := fun a b => Real.sqrt (a * a + b * b)
  atan2 := fun y x => Complex.arg ⟨x, y⟩
  cos := Real.cos
  sin := Real.sin
  sqrt := Real.sqrt
  twoPi := 2 * Real.pi

/-- A vacuous interpretation of the `math` primitives, usable at `ℚ` for
claims whose truth does not depend on the numeric values they return. -/
def zeroMathOps (α : Type) [LinearOrderedField α] : MathOps α where
  hypot := fun _ _ => 0
  atan2 := fun _ _ => 0
  cos := fun _ => 0
  sin := fun _ => 0
  sqrt := fun _ => 0
  twoPi := 0

/-- A minimal concrete state collaborator over the trivial state `Unit`: all
position reads are `0`, `logicalToNative` is the identity, mutators keep the
state, and all delegation entry points answer "no replacement". -/
def unitOps (α : Type) [LinearOrderedField α] : StateOps α Unit where
  xCurrent := fun _ => 0
  yCurrent := fun _ => 0
  zCurrent := fun _ => 0
  xLogicalToNative := fun _ v => v
  yLogicalToNative := fun _ v => v
  zLogicalToNative := fun _ v => v
  eLogicalToNative := fun _ v => v
  xSetHome := fun s => s
  ySetHome := fun s => s
  zSetHome := fun s => s
  eSetLogicalPosition := fun s _ => s
  xSetLogicalOffsetPosition := fun s _ => s
  ySetLogicalOffsetPosition := fun s _ => s
  zSetLogicalOffsetPosition := fun s _ => s
  xSetHomeOffset := fun s _ => s
  ySetHomeOffset := fun s _ => s
  zSetHomeOffset := fun s _ => s
  setUnitMultiplier := fun s _ => s
  setAbsoluteMode := fun s _ => s
  processLinearMoves := fun s _ _ _ _ _ => (HandlerResult.noop, s)
  processExtendedGcode := fun s _ _ _ => (HandlerResult.noop, s)
  recordRetraction := fun s _ => (none, s)
  recoverRetractionIfNeeded := fun s _ _ => (none, s)
  ignoreGcodeCommand := fun s => s

/- ### Helper lemmas -/

/-- Flattening `n` two-element lists yields a list of length `2 * n`. -/
lemma length_flatten_pairs {β : Type} (g : ℕ → List β) (n : ℕ)
    (hg : ∀ k, (g k).length = 2) :
    (((List.range n).map g).flatten).length = 2 * n := by
  induction n with
  | zero => simp
  | succ n ih =>
    rw [List.range_succ, List.map_append, List.flatten_append, List.length_append, ih]
    simp [hg]
    ring

/-- A flat list made of `n` two-element chunks followed by a final pair has
even length and its final two entries are that pair. -/
lemma even_endpoint_of_pairs {β : Type} (g : ℕ → List β) (n : ℕ)
    (hg : ∀ k, (g k).length = 2) (a b : β) :
    (((List.range n).map g).flatten ++ [a, b]).length % 2 = 0 ∧
    (((List.range n).map g).flatten ++ [a, b]).drop
      ((((List.range n).map g).flatten ++ [a, b]).length - 2) = [a, b] := by
  have hl : (((List.range n).map g).flatten).length = 2 * n := length_flatten_pairs g n hg
  have h2 : ([a, b] : List β).length = 2 := rfl
  constructor
  · rw [List.length_append, hl, h2]
    omega
  · rw [List.length_append, hl,
      show 2 * n + List.length [a, b] - 2 = (((List.range n).map g).flatten).length from by
        rw [hl]; simp]
    exact List.drop_left _ _

/-- A fold of `arcStep` over arguments none of which is labelled `R`, `I` or
`J` leaves the `radius`, `i` and `j` fields untouched. -/
lemma arcArgs_foldl_preserves_offsets (ops : StateOps α σ) (s : σ)
    (l : List (Char × ℚ)) (a : ArcArgs α)
    (h : ∀ lv ∈ l, lv.1.toUpper ≠ 'R' ∧ lv.1.toUpper ≠ 'I' ∧ lv.1.toUpper ≠ 'J') :
    (l.foldl (arcStep ops s) a).radius = a.radius ∧
    (l.foldl (arcStep ops s) a).i = a.i ∧ (l.foldl (arcStep ops s) a).j = a.j := by
  induction l generalizing a with
  | nil => exact ⟨rfl, rfl, rfl⟩
  | cons hd tl ih =>
    have hhd := h hd (List.mem_cons_self hd tl)
    have step : (arcStep ops s a hd).radius = a.radius ∧
        (arcStep ops s a hd).i = a.i ∧ (arcStep ops s a hd).j = a.j := by
      simp only [arcStep]
      split_ifs <;> simp_all
    have rest := ih (arcStep ops s a hd) (fun lv hlv => h lv (List.mem_cons_of_mem hd hlv))
    simp only [List.foldl_cons]
    exact ⟨rest.1.trans step.1, rest.2.1.trans step.2.1, rest.2.2.trans step.2.2⟩

/-- The complex number `⟨x, 0⟩` is the real coercion of `x`. -/
lemma complex_mk_ofReal (x : ℝ) : (⟨x, 0⟩ : ℂ) = (x : ℝ) := by
  apply Complex.ext <;> simp

/-- `math.atan2(0, x)` is `0` for nonnegative `x`. -/
lemma realMathOps_atan2_zero_nonneg (x : ℝ) (h : 0 ≤ x) :
    realMathOps.atan2 0 x = 0 := by
  show Complex.arg ⟨x, 0⟩ = 0
  rw [complex_mk_ofReal]
  exact Complex.arg_ofReal_of_nonneg h

/-- `math.atan2(0, x)` is `π` for negative `x`. -/
lemma realMathOps_atan2_zero_neg (x : ℝ) (h : x < 0) :
    realMathOps.atan2 0 x = Real.pi := by
  show Complex.arg ⟨x, 0⟩ = Real.pi
  rw [complex_mk_ofReal]
  exact Complex.arg_ofReal_of_neg h

/-- `math.hypot(a, b)` evaluated when the sum of squares has a known
nonnegative root. -/
lemma realMathOps_hypot_eq (a b c : ℝ) (h : a * a + b * b = c ^ 2) (hc : 0 ≤ c) :
    realMathOps.hypot a b = c := by
  show Real.sqrt (a * a + b * b) = c
  rw [h, Real.sqrt_sq hc]

/-- `⌈π/4⌉ = 1`. -/
lemma ceil_pi_quarter : ⌈(Real.pi * (1 / 4) : ℝ)⌉ = 1 := by
  rw [Int.ceil_eq_iff]
  constructor
  · push_cast
    nlinarith [Real.pi_pos]
  · push_cast
    nlinarith [Real.pi_le_four]

/-- `⌈2π⌉ = 7`. -/
lemma ceil_two_pi : ⌈(2 * Real.pi : ℝ)⌉ = 7 := by
  rw [Int.ceil_eq_iff]
  constructor
  · push_cast
    nlinarith [Real.pi_gt_three]
  · push_cast
    nlinarith [Real.pi_lt_d2]

/-- Raw angular travel of the half-circle request `end = (-1/2, 0)`,
`i = -1/4`, `j = 0` from the origin: exactly `π`. -/
lemma arcTravelRaw_semicircle_x :
    arcTravelRaw realMathOps 0 0 (-(1/2)) 0 (-(1/4)) 0 false = Real.pi := by
  simp only [arcTravelRaw]
  norm_num
  rw [realMathOps_atan2_zero_neg _ (by norm_num)]
  rw [if_neg (asymm Real.pi_pos)]

/-- Raw angular travel of the half-circle request `end = (0, -1/2)`,
`i = 0`, `j = -1/4` from the origin: exactly `π`. -/
lemma arcTravelRaw_semicircle_y :
    arcTravelRaw realMathOps 0 0 0 (-(1/2)) 0 (-(1/4)) false = Real.pi := by
  simp only [arcTravelRaw]
  norm_num
  rw [realMathOps_atan2_zero_neg _ (by norm_num)]
  rw [if_neg (asymm Real.pi_pos)]

/-- The full-circle adjustment does not fire for the first half-circle
request (the endpoint differs from the current position). -/
lemma arcTravel_semicircle_x :
    arcTravel realMathOps 0 0 (-(1/2)) 0 (-(1/4)) 0 false = Real.pi := by
  simp only [arcTravel, arcTravelRaw_semicircle_x]
  rw [if_neg]
  intro hc
  exact absurd hc.2.1 (by norm_num)

/-- The full-circle adjustment does not fire for the second half-circle
request. -/
lemma arcTravel_semicircle_y :
    arcTravel realMathOps 0 0 0 (-(1/2)) 0 (-(1/4)) false = Real.pi := by
  simp only [arcTravel, arcTravelRaw_semicircle_y]
  rw [if_neg]
  intro hc
  exact absurd hc.2.2 (by norm_num)

/-- Segment count of the first half-circle request: the arc length is
`π/4 ≤ 1`, so `min(ceil(arcLength), 2) = 1`. -/
lemma arcNumSegments_semicircle_x :
    arcNumSegments realMathOps 0 0 (-(1/2)) 0 (-(1/4)) 0 false = 1 := by
  rw [arcNumSegments, arcTravel_semicircle_x, arcRadius,
    realMathOps_hypot_eq (-(1/4)) 0 (1/4) (by norm_num) (by norm_num),
    ceil_pi_quarter]
  decide

/-- Segment count of the second half-circle request: again `1`. -/
lemma arcNumSegments_semicircle_y :
    arcNumSegments realMathOps 0 0 0 (-(1/2)) 0 (-(1/4)) false = 1 := by
  rw [arcNumSegments, arcTravel_semicircle_y, arcRadius,
    realMathOps_hypot_eq 0 (-(1/4)) (1/4) (by norm_num) (by norm_num),
    ceil_pi_quarter]
  decide

/-- With `i = 0`, `j = r` and the endpoint equal to the current position, the
raw angular travel is `atan2(0, r²) = 0`. -/
lemma arcTravelRaw_closed_loop (x y r : ℝ) :
    arcTravelRaw realMathOps x y x y 0 r false = 0 := by
  simp only [arcTravelRaw]
  rw [show -(0:ℝ) * (y - (y + r)) + r * (x - (x + 0)) = 0 from by ring]
  rw [show -(0:ℝ) * (x - (x + 0)) - r * (y - (y + r)) = r * r from by ring]
  rw [realMathOps_atan2_zero_nonneg _ (mul_self_nonneg r)]
  rw [if_neg (lt_irrefl 0)]
  simp

/-- The full-circle adjustment fires for a closed-loop request and yields
`2π`. -/
lemma arcTravel_closed_loop (x y r : ℝ) :
    arcTravel realMathOps x y x y 0 r false = 2 * Real.pi := by
  simp only [arcTravel, arcTravelRaw_closed_loop]
  rw [if_pos (by simp)]
  rfl

/-- Segment count of the unit-radius full circle: `min(ceil(2π), 2) = 2`. -/
lemma arcNumSegments_closed_loop (x y : ℝ) :
    arcNumSegments realMathOps x y x y 0 1 false = 2 := by
  rw [arcNumSegments, arcTravel_closed_loop, arcRadius,
    realMathOps_hypot_eq 0 1 1 (by norm_num) (by norm_num)]
  rw [show (2 * Real.pi : ℝ) * 1 = 2 * Real.pi from by ring, ceil_two_pi]
  decide

/-- `math.atan2(-0, -1) = π` (the planner's start angle for `i = 0`,
`j = 1`). -/
lemma realMathOps_atan2_neg_zero_neg_one :
    realMathOps.atan2 (-0) (-1) = Real.pi := by
  show Complex.arg ⟨-1, -0⟩ = Real.pi
  rw [show (⟨-1, -0⟩ : ℂ) = ((-1 : ℝ) : ℝ) from by apply Complex.ext <;> simp]
  exact Complex.arg_ofReal_of_neg (by norm_num)

/-- The unit-radius closed-loop request produces the two-point full-circle
approximation: one interior waypoint diametrically related to the start, then
the exact endpoint. -/
lemma planArc_closed_loop {σ : Type} (ops : StateOps ℝ σ) (s : σ) :
    planArc realMathOps ops s (ops.xCurrent s) (ops.yCurrent s) 0 1 false =
      some [ops.xCurrent s - 1, ops.yCurrent s + 1, ops.xCurrent s, ops.yCurrent s] := by
  simp only [planArc]
  rw [arcNumSegments_closed_loop, arcTravel_closed_loop, arcRadius,
    realMathOps_hypot_eq 0 1 1 (by norm_num) (by norm_num),
    realMathOps_atan2_neg_zero_neg_one]
  rw [if_neg (by decide : ¬(2 : ℤ) = 1)]
  rw [show ((2 : ℤ) - 1).toNat = 1 from by decide,
    show List.range 1 = [0] from rfl]
  simp only [List.map_cons, List.map_nil, List.flatten_cons, List.flatten_nil,
    List.append_nil, Nat.cast_zero, realMathOps]
  push_cast
  norm_num
  ring

/-- The Python integer XOR `1 ^ 1` of the direction flag is `0` (clockwise,
positive radius). -/
lemma arcDirectionFlag_cw_pos : arcDirectionFlag true (1 : ℝ) = 0 := by
  simp only [arcDirectionFlag]
  rw [if_neg (by norm_num : ¬(1:ℝ) < 0)]
  decide

/-- The Python integer XOR `1 ^ -1` of the direction flag is `-2` (clockwise,
negative radius). -/
lemma arcDirectionFlag_cw_neg : arcDirectionFlag true (-1 : ℝ) = -2 := by
  simp only [arcDirectionFlag]
  rw [if_pos (by norm_num : (-1:ℝ) < 0)]
  decide

/-- A clockwise unit-radius request from the origin to `(1, 0)`: the zero
direction flag collapses the center onto the chord midpoint, so the returned
offsets are `(1/2, 0)` although a center at distance `1` was requested. -/
lemma computeCenterOffsets_cw_unit :
    computeCenterOffsets realMathOps (unitOps ℝ) () 1 0 1 true = some (1/2, 0) := by
  simp only [computeCenterOffsets, unitOps]
  rw [if_pos (by norm_num : (1:ℝ) ≠ 0 ∧ ((0:ℝ) ≠ 1 ∨ (0:ℝ) ≠ 0))]
  rw [realMathOps_hypot_eq (1 - 0) (0 - 0) 1 (by norm_num) (by norm_num)]
  rw [if_neg (by norm_num : ¬(1:ℝ) * 1 - 1 / 2 * (1 / 2) < 0)]
  rw [arcDirectionFlag_cw_pos]
  norm_num

/- ### Claim theorems -/

/-- C1 (amended): whenever `planArc` returns normally (no exception), the
returned value is an even-length flat sequence of coordinates whose final two
values are exactly the `endX` and `endY` arguments.  This holds for every
interpretation of the `math` primitives, hence in particular for the real one. -/
theorem planArc_some_even_endpoint (m : MathOps α) (ops : StateOps α σ) (s : σ)
    (endX endY i j : α) (cw : Bool) (rval : List α)
    (h : planArc m ops s endX endY i j cw = some rval) :
    rval.length % 2 = 0 ∧ rval.drop (rval.length - 2) = [endX, endY] := by
  simp only [planArc] at h
  split at h
  · exact absurd h (by simp)
  · rw [Option.some_inj] at h
    subst h
    apply even_endpoint_of_pairs
    intro k
    rfl

/-- C1 witness: a concrete normal return of `planArc`, with the conclusion
evaluated. -/
theorem planArc_some_even_endpoint_witness :
    planArc (zeroMathOps ℚ) (unitOps ℚ) () 5 7 1 0 false = some [5, 7] ∧
    ([5, 7] : List ℚ).length % 2 = 0 ∧
    ([5, 7] : List ℚ).drop (([5, 7] : List ℚ).length - 2) = [5, 7] :=
  ⟨by with_unfolding_all decide,
   planArc_some_even_endpoint (zeroMathOps ℚ) (unitOps ℚ) () 5 7 1 0 false [5, 7]
     (by with_unfolding_all decide)⟩

/-- C3: `handleGcode` increments the state collaborator's `numCommands`
counter by exactly one, for every command string, every operation code
(recognised or not) and every dispatch outcome that returns; the increment is
unconditional, performed before dispatch, and no handler touches the
counter. -/
theorem handleGcode_increments_numCommands (m : MathOps α) (ops : StateOps α σ)
    (st : GState σ) (cmd gcode : String) (subcode : Option String)
    (r : HandlerResult) (st' : GState σ)
    (h : handleGcode m ops st cmd gcode subcode = some (r, st')) :
    st'.numCommands = st.numCommands + 1 := by
  simp only [handleGcode] at h
  cases hd : dispatchGcode m ops st.inner cmd gcode subcode with
  | none => rw [hd] at h; simp at h
  | some p =>
    rw [hd] at h
    have h' : (p.1, (⟨st.numCommands + 1, p.2⟩ : GState σ)) = (r, st') := by
      simpa using h
    have hs : st' = ⟨st.numCommands + 1, p.2⟩ := (congrArg Prod.snd h').symm
    rw [hs]

/-- C3 witness: a concrete dispatch, with the incremented counter evaluated. -/
theorem handleGcode_increments_numCommands_witness :
    handleGcode (zeroMathOps ℚ) (unitOps ℚ) ⟨5, ()⟩ (r"G21") (r"G21") none =
      some (HandlerResult.noop, ⟨6, ()⟩) ∧
    (⟨6, ()⟩ : GState Unit).numCommands = (⟨5, ()⟩ : GState Unit).numCommands + 1 :=
  ⟨by with_unfolding_all decide,
   handleGcode_increments_numCommands (zeroMathOps ℚ) (unitOps ℚ) ⟨5, ()⟩
     (r"G21") (r"G21") none HandlerResult.noop ⟨6, ()⟩ (by with_unfolding_all decide)⟩

/-- C6: a `G2`/`G3` command whose parsed center offsets `i` and `j` are both
zero (either by default, when no `I`/`J` argument is present, or because the
converted values are zero) and which carries no `R` parameter is passed through
unmodified: the handler returns the no-op signal, the collaborator state is
untouched (so neither the linear-move processor nor the arc planner was
invoked), for any combination of `X`, `Y`, `Z`, `E` and `F` arguments. -/
theorem handleG2_zero_offset_passthrough (m : MathOps α) (ops : StateOps α σ)
    (s : σ) (cmd gcode : String)
    (h1 : (arcArgsOf ops s cmd).radius = none)
    (h2 : (arcArgsOf ops s cmd).i = 0) (h3 : (arcArgsOf ops s cmd).j = 0) :
    handleG2 m ops s cmd gcode = some (HandlerResult.noop, s) := by
  simp only [handleG2, h1, h2, h3, arcFinish]
  rw [if_neg (by simp : ¬((0 : α) ≠ 0 ∨ (0 : α) ≠ 0))]

/-- C6 witness: a `G2` with `X`, `Y`, `E` and `F` arguments but no `R`, `I` or
`J` evaluates to the no-op result with the state unchanged. -/
theorem handleG2_zero_offset_passthrough_witness :
    (arcArgsOf (unitOps ℚ) () (r"G2 X10 Y5 E0.3 F1500")).radius = none ∧
    (arcArgsOf (unitOps ℚ) () (r"G2 X10 Y5 E0.3 F1500")).i = 0 ∧
    (arcArgsOf (unitOps ℚ) () (r"G2 X10 Y5 E0.3 F1500")).j = 0 ∧
    handleG2 (zeroMathOps ℚ) (unitOps ℚ) () (r"G2 X10 Y5 E0.3 F1500") (r"G2") =
      some (HandlerResult.noop, ()) :=
  ⟨by with_unfolding_all decide, by with_unfolding_all decide,
   by with_unfolding_all decide,
   handleG2_zero_offset_passthrough (zeroMathOps ℚ) (unitOps ℚ) ()
     (r"G2 X10 Y5 E0.3 F1500") (r"G2") (by with_unfolding_all decide)
     (by with_unfolding_all decide) (by with_unfolding_all decide)⟩

/-- C8: `_handle_G10` passes the command through unmodified whenever any
argument token begins with `P` or `L`; otherwise it delegates a firmware
retract record to the state collaborator's retraction recorder, suppressing the
command when the recorder answers `None` and emitting the recorder's
replacement commands otherwise. -/
theorem handleG10_passthrough_or_retract (ops : StateOps α σ) (s : σ)
    (cmd : String) :
    (((splitArgs cmd).drop 1).any startsWithPL = true →
      handleG10 ops s cmd = (HandlerResult.noop, s)) ∧
    (((splitArgs cmd).drop 1).any startsWithPL = false →
      (∀ s', ops.recordRetraction s ⟨true, cmd⟩ = (none, s') →
        handleG10 ops s cmd = (HandlerResult.ignore, ops.ignoreGcodeCommand s')) ∧
      (∀ cs s', ops.recordRetraction s ⟨true, cmd⟩ = (some cs, s') →
        handleG10 ops s cmd = (HandlerResult.commands cs, s'))) := by
  constructor
  · intro h
    simp only [handleG10, h]
    simp
  · intro h
    constructor
    · intro s' hrec
      simp only [handleG10, h, hrec]
      simp
    · intro cs s' hrec
      simp only [handleG10, h, hrec]
      simp

/-- C8 witness: `G10 P1` passes through; `G10 S1` with a recorder answering
`None` is suppressed. -/
theorem handleG10_passthrough_or_retract_witness :
    handleG10 (unitOps ℚ) () (r"G10 P1") = (HandlerResult.noop, ()) ∧
    handleG10 (unitOps ℚ) () (r"G10 S1") = (HandlerResult.ignore, ()) :=
  ⟨(handleG10_passthrough_or_retract (unitOps ℚ) () (r"G10 P1")).1
     (by with_unfolding_all decide),
   ((handleG10_passthrough_or_retract (unitOps ℚ) () (r"G10 S1")).2
     (by with_unfolding_all decide)).1 () (by with_unfolding_all decide)⟩

/-- C9: tokenizing `G1 X10 Y-5.5 E0.3 F1500` yields extruder `0.3`, feed rate
`1500`, `X = 10` and `Y = -5.5`; argument labels are upper-cased before
dispatch, so a lowercase token such as `x10` parses identically to `X10`. -/
theorem tokenize_linear_move_example :
    moveArgsOf (r"G1 X10 Y-5.5 E0.3 F1500") =
      ⟨some (3/10), some 1500, some 10, some (-(11/2)), none⟩ ∧
    (∀ a : MoveArgs, ∀ v : ℚ,
      moveArgStep a ('e', v) = moveArgStep a ('E', v) ∧
      moveArgStep a ('f', v) = moveArgStep a ('F', v) ∧
      moveArgStep a ('x', v) = moveArgStep a ('X', v) ∧
      moveArgStep a ('y', v) = moveArgStep a ('Y', v) ∧
      moveArgStep a ('z', v) = moveArgStep a ('Z', v)) ∧
    parsedArgs (r"G1 x10") = [('x', 10)] ∧
    moveArgsOf (r"G1 x10 y-5.5 e0.3 f1500") = moveArgsOf (r"G1 X10 Y-5.5 E0.3 F1500") :=
  ⟨by with_unfolding_all decide,
   fun a v => ⟨rfl, rfl, rfl, rfl, rfl⟩,
   by with_unfolding_all decide,
   by with_unfolding_all decide⟩

/-- C10: the seven state-mutating handlers (`G20`, `G21`, `G28`, `G90`, `G91`,
`G92`, `M206`) always return the no-op signal for every input command and every
collaborator: they never suppress or replace the command, their only observable
effect being the state mutation they delegate. -/
theorem passive_handlers_return_noop (ops : StateOps α σ) (s : σ) (cmd : String) :
    (handleG20 ops s cmd).1 = HandlerResult.noop ∧
    (handleG21 ops s cmd).1 = HandlerResult.noop ∧
    (handleG28 ops s cmd).1 = HandlerResult.noop ∧
    (handleG90 ops s cmd).1 = HandlerResult.noop ∧
    (handleG91 ops s cmd).1 = HandlerResult.noop ∧
    (handleG92 ops s cmd).1 = HandlerResult.noop ∧
    (handleM206 ops s cmd).1 = HandlerResult.noop :=
  ⟨rfl, rfl, rfl, rfl, rfl, rfl, rfl⟩

/-- C1 counterexample: a non-degenerate call (`(i, j) = (0, -1/4) ≠ (0, 0)`)
on which `planArc` does not return a value at all: the counter-clockwise
half-circle from the origin to `(0, -1/2)` has arc length `π/4`, the segment
count `min(ceil(π/4), 2)` is `1`, and the division
`angularTravel / (numSegments - 1)` raises `ZeroDivisionError`, so there is no
returned sequence ending in the endpoint. -/
theorem planArc_short_ccw_arc_no_return :
    planArc realMathOps (unitOps ℝ) () 0 (-(1/2)) 0 (-(1/4)) false = none := by
  simp only [planArc, unitOps]
  rw [arcNumSegments_semicircle_y]
  simp

/-- C2: contrary to the claim, `planArc` does raise: on the counter-clockwise
half-circle from the origin to `(-1/2, 0)` with `(i, j) = (-1/4, 0) ≠ (0, 0)`,
the `min`-clamp produces `numSegments = 1`, making the divisor
`numSegments - 1` zero, and the division raises `ZeroDivisionError` (modelled
as `none`). -/
theorem planArc_zero_divisor_failing_input :
    planArc realMathOps (unitOps ℝ) () (-(1/2)) 0 (-(1/4)) 0 false = none := by
  simp only [planArc, unitOps]
  rw [arcNumSegments_semicircle_x]
  simp

/-- C4: contrary to the claim, the direction flag of `_computeCenterOffsets`
does not take only the values `+1` and `-1`: Python's integer XOR gives
`e = 1 ^ 1 = 0` for a clockwise arc with positive radius and
`e = 1 ^ -1 = -2` for a clockwise arc with negative radius.  Consequently, for
the clockwise radius-1 arc from the origin to `(1, 0)` the solver returns the
offsets `(1/2, 0)`, placing the center at the chord midpoint, at distance
`1/2 ≠ 1` from the start. -/
theorem arcDirectionFlag_not_pm_one :
    arcDirectionFlag true (1 : ℝ) = 0 ∧ arcDirectionFlag true (1 : ℝ) ≠ 1 ∧
    arcDirectionFlag true (1 : ℝ) ≠ -1 ∧ arcDirectionFlag true (-1 : ℝ) = -2 ∧
    computeCenterOffsets realMathOps (unitOps ℝ) () 1 0 1 true = some (1/2, 0) ∧
    (1 : ℝ)/2 * (1/2) + 0 * 0 ≠ 1 * 1 := by
  refine ⟨arcDirectionFlag_cw_pos, ?_, ?_, arcDirectionFlag_cw_neg,
    computeCenterOffsets_cw_unit, by norm_num⟩
  · rw [arcDirectionFlag_cw_pos]
    decide
  · rw [arcDirectionFlag_cw_pos]
    decide

/-- C5: for a non-degenerate request (`radius ≠ 0`, start `≠` end),
`_computeCenterOffsets` fails with the `math.sqrt` domain error (Python
`ValueError`, modelled as `none`) exactly when `radius² < halfChord²`, and
returns normally otherwise. -/
theorem computeCenterOffsets_sqrt_domain {σ : Type} (ops : StateOps ℝ σ) (s : σ)
    (x y radius : ℝ) (cw : Bool) (h0 : radius ≠ 0)
    (h1 : ops.xCurrent s ≠ x ∨ ops.yCurrent s ≠ y) :
    (computeCenterOffsets realMathOps ops s x y radius cw = none ↔
      radius * radius <
        realMathOps.hypot (x - ops.xCurrent s) (y - ops.yCurrent s) / 2 *
          (realMathOps.hypot (x - ops.xCurrent s) (y - ops.yCurrent s) / 2)) := by
  simp only [computeCenterOffsets]
  rw [if_pos ⟨h0, h1⟩]
  split_ifs with h2
  · rw [sub_neg] at h2
    exact iff_of_true rfl h2
  · rw [sub_neg] at h2
    exact iff_of_false (by simp) h2

/-- C5 witness: radius `1` from the origin to `(4, 0)` (half-chord `2`) fails
with the domain error. -/
theorem computeCenterOffsets_sqrt_domain_witness :
    computeCenterOffsets realMathOps (unitOps ℝ) () 4 0 1 false = none := by
  have h := computeCenterOffsets_sqrt_domain (unitOps ℝ) () 4 0 1 false
    (by norm_num) (Or.inl (by norm_num [unitOps]))
  apply h.mpr
  rw [realMathOps_hypot_eq (4 - (unitOps ℝ).xCurrent ()) (0 - (unitOps ℝ).yCurrent ()) 4
    (by norm_num [unitOps]) (by norm_num)]
  norm_num

/-- C7: a `planArc` request whose endpoint equals the current position with
`i = 0`, `j = radius`, counter-clockwise, has raw angular travel exactly `0`
and is treated as a full revolution: the effective angular travel is `2π`, and
for radius `1` the planner emits an interior waypoint followed by the exact
endpoint rather than a zero-length arc. -/
theorem planArc_full_circle_travel {σ : Type} (ops : StateOps ℝ σ) (s : σ)
    (r : ℝ) (hr : r ≠ 0) :
    (arcTravelRaw realMathOps (ops.xCurrent s) (ops.yCurrent s) (ops.xCurrent s)
        (ops.yCurrent s) 0 r false = 0 ∧
      arcTravel realMathOps (ops.xCurrent s) (ops.yCurrent s) (ops.xCurrent s)
        (ops.yCurrent s) 0 r false = 2 * Real.pi) ∧
    planArc realMathOps ops s (ops.xCurrent s) (ops.yCurrent s) 0 1 false =
      some [ops.xCurrent s - 1, ops.yCurrent s + 1, ops.xCurrent s, ops.yCurrent s] :=
  ⟨⟨arcTravelRaw_closed_loop _ _ _, arcTravel_closed_loop _ _ _⟩,
    planArc_closed_loop ops s⟩

/-- C7 witness: the concrete closed-loop request at the origin with radius
`1`. -/
theorem planArc_full_circle_travel_witness :
    (arcTravelRaw realMathOps 0 0 0 0 0 1 false = 0 ∧
      arcTravel realMathOps 0 0 0 0 0 1 false = 2 * Real.pi) ∧
    planArc realMathOps (unitOps ℝ) () 0 0 0 1 false = some [0 - 1, 0 + 1, 0, 0] := by
  have h := planArc_full_circle_travel (unitOps ℝ) () 1 one_ne_zero
  simpa [unitOps] using h

end ExcludeRegion
